import Mathlib

/-!
Shallow embedding of the dual-implementation resource-manager layer of the
`commonpython` repository: the manager factory
(`commonpython/factories/manager_factory.py`), the CLI-backed managers
(`commonpython/database/db2_manager.py`, `commonpython/messaging/mq_manager.py`)
and the `ibm_db`-backed adapter (`commonpython/adapters/db2_library_adapter.py`).

External effects (subprocess invocations, native library calls, the body run
inside a transaction scope) are modelled by explicit outcome values passed as
arguments: a subprocess either returns a result record (return code, stdout,
stderr) or raises (timeout / OS error); a native call or a transaction body
either returns or raises.  Logging is modelled by counting calls where a claim
depends on it.  Wall-clock-derived data (timestamps in message properties,
durations passed to the logger) is not modelled; no claim depends on it.
-/

set_option autoImplicit false

namespace CommonPython

/-- Result record of a completed `subprocess.run` call, as repackaged by
`_execute_db2_command` / `_execute_mq_command` (`success` is
`returncode == 0`). -/
structure ToolResult where
  returncode : Int
  stdout : String
  stderr : String
  deriving DecidableEq, Repr

/-- Outcome of one external tool invocation: the process completed (with any
exit code), or the invocation itself raised (`subprocess.TimeoutExpired`,
OS error). -/
inductive ToolOutcome where
  | ok (r : ToolResult)
  | raise (msg : String)
  deriving DecidableEq, Repr

/-- Outcome of a Python call that either returns `None` or raises: used for
transaction bodies and for native-library calls such as
`ibm_db_dbi` `commit` / `rollback` / `cursor.execute`. -/
inductive PyOutcome where
  | ok
  | raise (msg : String)
  deriving DecidableEq, Repr

/-- `str.lower()` as applied by the factory to the `implementation` value
(ASCII case folding; the configuration values in question are ASCII). -/
def pyLower (s : String) : String :=
  ⟨s.toList.map Char.toLower⟩

instance {ε α : Type} [DecidableEq ε] [DecidableEq α] : DecidableEq (Except ε α) :=
  fun x y =>
    match x, y with
    | .ok a, .ok b =>
      if h : a = b then isTrue (by rw [h]) else isFalse (fun hh => h (Except.ok.inj hh))
    | .error a, .error b =>
      if h : a = b then isTrue (by rw [h]) else isFalse (fun hh => h (Except.error.inj hh))
    | .ok _, .error _ => isFalse (fun hh => Except.noConfusion hh)
    | .error _, .ok _ => isFalse (fun hh => Except.noConfusion hh)

/-! ## Manager factory (`manager_factory.py`) -/

/-- Which concrete adapter class a factory call constructs. -/
inductive ManagerChoice where
  | cliAdapter
  | libraryAdapter
  deriving DecidableEq, Repr

/-- Result of a factory call: a constructed adapter, or a raised `ValueError`
carrying the message built by the factory. -/
inductive FactoryResult where
  | ok (m : ManagerChoice)
  | error (msg : String)
  deriving DecidableEq, Repr

/-- Observable outcome of one `create_*_manager` call: its result, the
availability-cache entry afterwards, and how many `warning` / `info` log
calls it made. -/
structure FactoryOutcome where
  result : FactoryResult
  cache : Option Bool
  warnings : Nat
  infos : Nat
  deriving DecidableEq, Repr

/-- The `ValueError` message for an unknown database implementation value. -/
def dbUnknownImplMsg (t : String) : String :=
  "Unknown database implementation type: \u0027" ++ t ++
    "\u0027. Valid options are \u0027cli\u0027 or \u0027library\u0027"

/-- The `ValueError` message when `ibm_db` is requested without fallback. -/
def dbMissingLibMsg : String :=
  "DB2 library implementation requested but ibm_db is not installed. " ++
    "Install with: pip install ibm_db"

/-- The `ValueError` message for an unknown messaging implementation value. -/
def mqUnknownImplMsg (t : String) : String :=
  "Unknown messaging implementation type: \u0027" ++ t ++
    "\u0027. Valid options are \u0027cli\u0027 or \u0027library\u0027"

/-- The `ValueError` message when `pymqi` is requested without fallback. -/
def mqMissingLibMsg : String :=
  "MQ library implementation requested but pymqi is not installed. " ++
    "Install with: pip install pymqi"

/-- `ManagerFactory.create_database_manager`.
`impl` is `config.get("implementation")`, `auto_fallback` is
`config.get("auto_fallback", True)`, `cache` is the
`_adapter_cache["db2_library_available"]` entry before the call, `hasIbmDb`
is what probing `HAS_IBM_DB` would find, `hasLogger` says whether a logger
was supplied. -/
def create_database_manager (impl : Option String) (auto_fallback : Bool)
    (cache : Option Bool) (hasIbmDb : Bool) (hasLogger : Bool) : FactoryOutcome :=
  let implType := pyLower (impl.getD "cli")
  let avail := cache.getD hasIbmDb
  let cacheAfter := some avail
  if implType = "library" then
    if avail then
      { result := .ok .libraryAdapter, cache := cacheAfter, warnings := 0,
        infos := if hasLogger then 1 else 0 }
    else if auto_fallback then
      { result := .ok .cliAdapter, cache := cacheAfter,
        warnings := if hasLogger then 1 else 0, infos := 0 }
    else
      { result := .error dbMissingLibMsg, cache := cacheAfter, warnings := 0, infos := 0 }
  else if implType = "cli" then
    { result := .ok .cliAdapter, cache := cacheAfter, warnings := 0,
      infos := if hasLogger then 1 else 0 }
  else
    { result := .error (dbUnknownImplMsg implType), cache := cacheAfter,
      warnings := 0, infos := 0 }

/-- `ManagerFactory.create_messaging_manager`; parameters as for
`create_database_manager`, with `hasPymqi` the result of probing
`HAS_PYMQI`. -/
def create_messaging_manager (impl : Option String) (auto_fallback : Bool)
    (cache : Option Bool) (hasPymqi : Bool) (hasLogger : Bool) : FactoryOutcome :=
  let implType := pyLower (impl.getD "cli")
  let avail := cache.getD hasPymqi
  let cacheAfter := some avail
  if implType = "library" then
    if avail then
      { result := .ok .libraryAdapter, cache := cacheAfter, warnings := 0,
        infos := if hasLogger then 1 else 0 }
    else if auto_fallback then
      { result := .ok .cliAdapter, cache := cacheAfter,
        warnings := if hasLogger then 1 else 0, infos := 0 }
    else
      { result := .error mqMissingLibMsg, cache := cacheAfter, warnings := 0, infos := 0 }
  else if implType = "cli" then
    { result := .ok .cliAdapter, cache := cacheAfter, warnings := 0,
      infos := if hasLogger then 1 else 0 }
  else
    { result := .error (mqUnknownImplMsg implType), cache := cacheAfter,
      warnings := 0, infos := 0 }

/-! ## CLI database manager (`db2_manager.py`) -/

/-- The `success` field `_execute_db2_command` / `_execute_mq_command` put in
their result dictionary. -/
def ToolResult.success (r : ToolResult) : Bool :=
  r.returncode == 0

/-- Transaction-boundary invocations a call issues, in order. -/
inductive TxEvent where
  | begin_tx
  | commit_tx
  | rollback_tx
  deriving DecidableEq, Repr

/-- The `except` block shared by `DB2Manager.transaction` and
`DB2Manager.execute_batch`: issue a `rollback` invocation, then re-raise.
If the rollback invocation itself raises, that exception propagates instead
of the original one `m`. -/
def rollbackThenRaise {α : Type} (m : String) (rollbackO : ToolOutcome) (pre : List TxEvent) :
    Except String α × List TxEvent :=
  match rollbackO with
  | .raise m2 => (.error m2, pre ++ [.rollback_tx])
  | .ok _ => (.error m, pre ++ [.rollback_tx])

/-- `DB2Manager.transaction` (a `contextmanager`): guard, `begin transaction`
invocation, the body run at the `yield`, then `commit`; any exception from
begin, body or commit reaches the `except` clause, which issues `rollback`
and re-raises.  Returns the call outcome and the boundary invocations
issued. -/
def DB2Manager.transaction (connected : Bool) (beginO : ToolOutcome)
    (body : PyOutcome) (commitO rollbackO : ToolOutcome) :
    Except String Unit × List TxEvent :=
  if connected then
    match beginO with
    | .raise m => rollbackThenRaise m rollbackO [.begin_tx]
    | .ok _ =>
      match body with
      | .raise m => rollbackThenRaise m rollbackO [.begin_tx]
      | .ok =>
        match commitO with
        | .raise m => rollbackThenRaise m rollbackO [.begin_tx, .commit_tx]
        | .ok _ => (.ok (), [.begin_tx, .commit_tx])
  else
    (.error "Database connection not established", [])

/-- `DB2Manager.execute_update`: guard, one `import from` invocation whose
result dictionary is discarded, then the fixed count 1 is returned; only a
raising invocation makes the call fail. -/
def DB2Manager.execute_update (connected : Bool) (cmdO : ToolOutcome) :
    Except String Nat :=
  if connected then
    match cmdO with
    | .raise m => .error m
    | .ok _ => .ok 1
  else
    .error "Database connection not established"

/-- The statement loop of `DB2Manager.execute_batch`: each query goes through
`execute_update` (connected, so each yields 1 or propagates the raised
message of its invocation). -/
def runStatements : List ToolOutcome → Except String (List Nat)
  | [] => .ok []
  | o :: rest =>
    match o with
    | .raise m => .error m
    | .ok _ => (runStatements rest).map (fun ns => 1 :: ns)

/-- `DB2Manager.execute_batch`: guard, `begin transaction`, the statement
loop, `commit`; any raised exception reaches the `except` clause, which
issues `rollback` and re-raises. -/
def DB2Manager.execute_batch (connected : Bool) (beginO : ToolOutcome)
    (stmts : List ToolOutcome) (commitO rollbackO : ToolOutcome) :
    Except String (List Nat) × List TxEvent :=
  if connected then
    match beginO with
    | .raise m => rollbackThenRaise m rollbackO [.begin_tx]
    | .ok _ =>
      match runStatements stmts with
      | .error m => rollbackThenRaise m rollbackO [.begin_tx]
      | .ok counts =>
        match commitO with
        | .raise m => rollbackThenRaise m rollbackO [.begin_tx, .commit_tx]
        | .ok _ => (.ok counts, [.begin_tx, .commit_tx])
  else
    (.error "Database connection not established", [])

/-! ## Library database adapter (`db2_library_adapter.py`) -/

/-- `DB2LibraryAdapter.transaction`: guard, the body at the `yield`, native
`commit` on normal completion; any exception reaches the `except` clause,
which calls native `rollback` and re-raises (a raising rollback propagates
instead of the original exception). -/
def DB2LibraryAdapter.transaction (connected : Bool) (body : PyOutcome)
    (commitO rollbackO : PyOutcome) : Except String Unit × List TxEvent :=
  if connected then
    match body with
    | .raise m =>
      (match rollbackO with
       | .raise m2 => (.error m2, [.rollback_tx])
       | .ok => (.error m, [.rollback_tx]))
    | .ok =>
      match commitO with
      | .raise m =>
        (match rollbackO with
         | .raise m2 => (.error m2, [.commit_tx, .rollback_tx])
         | .ok => (.error m, [.commit_tx, .rollback_tx]))
      | .ok => (.ok (), [.commit_tx])
  else
    (.error "Database connection not established", [])

/-- One statement of `DB2LibraryAdapter.execute_batch`: `cursor.execute`
either raises or leaves a `cursor.rowcount`. -/
inductive LibStmt where
  | ok (rowcount : Int)
  | raise (msg : String)
  deriving DecidableEq, Repr

/-- The statement loop of `DB2LibraryAdapter.execute_batch`, collecting each
`cursor.rowcount`. -/
def runLibStatements : List LibStmt → Except String (List Int)
  | [] => .ok []
  | s :: rest =>
    match s with
    | .raise m => .error m
    | .ok n => (runLibStatements rest).map (fun ns => n :: ns)

/-- `DB2LibraryAdapter.execute_batch`: guard, the statement loop, native
`commit`; a raised exception reaches the `except` clause, which calls
native `rollback` and re-raises. -/
def DB2LibraryAdapter.execute_batch (connected : Bool) (stmts : List LibStmt)
    (commitO rollbackO : PyOutcome) : Except String (List Int) × List TxEvent :=
  if connected then
    match runLibStatements stmts with
    | .error m =>
      (match rollbackO with
       | .raise m2 => (.error m2, [.rollback_tx])
       | .ok => (.error m, [.rollback_tx]))
    | .ok counts =>
      match commitO with
      | .raise m =>
        (match rollbackO with
         | .raise m2 => (.error m2, [.commit_tx, .rollback_tx])
         | .ok => (.error m, [.commit_tx, .rollback_tx]))
      | .ok => (.ok counts, [.commit_tx])
  else
    (.error "Database connection not established", [])

/-! ## CLI database manager: query path -/

/-- `DB2Manager._parse_csv_results` on the parsed rows of the export file:
first row gives the column names, each further non-empty row is zipped with
them (values beyond the column list are dropped, as is a column with no
value in the row). -/
def parse_csv_results (rows : List (List String)) : List (List (String × String)) :=
  match rows with
  | [] => []
  | cols :: data => data.filterMap fun row =>
      if row = [] then none else some (List.zip cols row)

/-- `DB2Manager.execute_query`: guard, the `import from` invocation (its
result dictionary is discarded, but a raising invocation propagates), the
`export to` invocation, then either the parsed export file or a raised
`Query execution failed` error carrying the captured stderr.
`fileRows` is the content of `/tmp/query_result.csv` as parsed by
`csv.reader`. -/
def DB2Manager.execute_query (connected : Bool) (importO exportO : ToolOutcome)
    (fileRows : List (List String)) : Except String (List (List (String × String))) :=
  if connected then
    match importO with
    | .raise m => .error m
    | .ok _ =>
      match exportO with
      | .raise m => .error m
      | .ok r =>
        if r.success then .ok (parse_csv_results fileRows)
        else .error ("Query execution failed: " ++ r.stderr)
  else
    .error "Database connection not established"

/-- `DB2Manager.get_table_info`: delegates to `execute_query` on a catalog
query. -/
def DB2Manager.get_table_info (connected : Bool) (importO exportO : ToolOutcome)
    (fileRows : List (List String)) : Except String (List (List (String × String))) :=
  DB2Manager.execute_query connected importO exportO fileRows

/-- `DB2Manager.get_database_info`: `execute_query` on a catalog query, then
the first row, or an empty record when the result is empty. -/
def DB2Manager.get_database_info (connected : Bool) (importO exportO : ToolOutcome)
    (fileRows : List (List String)) : Except String (List (String × String)) :=
  match DB2Manager.execute_query connected importO exportO fileRows with
  | .error m => .error m
  | .ok rows => .ok (rows.headD [])

/-- `DB2Manager.test_connection`: runs `execute_query` on
`SELECT 1 FROM SYSIBM.SYSDUMMY1` and reports whether it returned any row;
every exception (the not-connected guard included) is caught and turned
into `false`. -/
def DB2Manager.test_connection (connected : Bool) (importO exportO : ToolOutcome)
    (fileRows : List (List String)) : Bool :=
  match DB2Manager.execute_query connected importO exportO fileRows with
  | .error _ => false
  | .ok rows => rows.length > 0

/-- `DB2Manager.connect`: a `connect to` invocation; success sets the
`connected` flag, a failing or raising invocation leaves it unchanged and
returns `false`.  Result is `(returned value, connected flag after)`. -/
def DB2Manager.connect (connected : Bool) (cmdO : ToolOutcome) : Bool × Bool :=
  match cmdO with
  | .raise _ => (false, connected)
  | .ok r => if r.success then (true, true) else (false, connected)

/-- `DB2Manager.disconnect`: when connected, issue a `disconnect` invocation
and clear the flag; the flag assignment sits after the invocation inside
the `try`, so a raising invocation leaves the flag set.  Returns the flag
after the call. -/
def DB2Manager.disconnect (connected : Bool) (cmdO : ToolOutcome) : Bool :=
  if connected then
    match cmdO with
    | .raise _ => true
    | .ok _ => false
  else
    connected

/-! ## CLI messaging manager (`mq_manager.py`) -/

/-- Python character class used by `str.split()` / `str.strip()`. -/
def pyIsSpace (c : Char) : Bool :=
  c == ' ' || c == '\t' || c == '\n' || c == '\r' ||
    c == Char.ofNat 11 || c == Char.ofNat 12

/-- `str.strip()`. -/
def pyStrip (s : String) : String :=
  ⟨((s.toList.dropWhile pyIsSpace).reverse.dropWhile pyIsSpace).reverse⟩

/-- Split a character list at every separator position (empty pieces kept,
as Python `str.split(sep)` does). -/
def splitCharsOn (p : Char → Bool) : List Char → List Char → List (List Char)
  | [], acc => [acc.reverse]
  | c :: rest, acc =>
    if p c then acc.reverse :: splitCharsOn p rest []
    else splitCharsOn p rest (c :: acc)

/-- `str.split("\n")`. -/
def pySplitNl (s : String) : List String :=
  (splitCharsOn (· == '\n') s.toList []).map (fun cs => (⟨cs⟩ : String))

/-- `str.split()` with no separator: whitespace runs, empty pieces dropped. -/
def pySplitWs (s : String) : List String :=
  ((splitCharsOn pyIsSpace s.toList []).map (fun cs => (⟨cs⟩ : String))).filter (· ≠ "")

/-- The `in` substring test on character lists (`"CURDEPTH" in line`). -/
def listContainsSub (pat : List Char) : List Char → Bool
  | [] => decide (pat = [])
  | c :: rest => pat.isPrefixOf (c :: rest) || listContainsSub pat rest

/-- Value of a run of decimal digits, `none` when empty or non-digit. -/
def digitsVal : List Char → Option Nat
  | [] => none
  | cs => cs.foldl (fun acc c =>
      match acc with
      | none => none
      | some n => if c.isDigit then some (n * 10 + (c.toNat - 48)) else none)
      (some 0)

/-- `int(s)` as applied to a whitespace-free token: optional sign followed by
decimal digits, `none` when the conversion would raise `ValueError`. -/
def pyParseInt (s : String) : Option Int :=
  match s.toList with
  | [] => none
  | c :: rest =>
    if c = '-' then (digitsVal rest).map (fun n => -(n : Int))
    else if c = '+' then (digitsVal rest).map (fun n => (n : Int))
    else (digitsVal (c :: rest)).map (fun n => (n : Int))

/-- The inner token scan of `MQManager.get_queue_depth`: find a token equal to
`CURDEPTH` that is followed by a token `int()` accepts; keep scanning past
unparsable candidates. -/
def curdepthInLine : List String → Option Int
  | [] => none
  | p :: rest =>
    if p = "CURDEPTH" then
      match rest with
      | [] => none
      | next :: _ =>
        match pyParseInt next with
        | some n => some n
        | none => curdepthInLine rest
    else curdepthInLine rest

/-- The line scan of `MQManager.get_queue_depth`: split the tool output on
newlines, look only at lines containing `CURDEPTH`, and return the first
parsed value; `none` when the loops fall through. -/
def curdepthScan (out : String) : Option Int :=
  (pySplitNl out).firstM fun line =>
    if listContainsSub "CURDEPTH".toList line.toList then curdepthInLine (pySplitWs line)
    else none

/-- The message record `MQManager.get_message` builds from a tool output: the
stripped stdout is both the payload source and the raw bytes.  The JSON
decoding of the payload and the wall-clock-derived property fields are not
modelled; no claim depends on them. -/
structure Message where
  raw : String
  deriving DecidableEq, Repr

/-- `MQManager.connect`: a `display qmgr` invocation through `runmqsc`;
success sets the `connected` flag, a failing or raising invocation leaves
it unchanged and returns `false`. -/
def MQManager.connect (connected : Bool) (cmdO : ToolOutcome) : Bool × Bool :=
  match cmdO with
  | .raise _ => (false, connected)
  | .ok r => if r.success then (true, true) else (false, connected)

/-- `MQManager.disconnect`: clears the flag (no external invocation). -/
def MQManager.disconnect (connected : Bool) : Bool :=
  if connected then false else connected

/-- `MQManager.put_message`: guard, then one `amqsput` invocation.  A zero
exit code returns `true`; a non-zero exit code is logged and returns
`false`; a raising invocation (timeout included) is caught, logged, and
also returns `false`. -/
def MQManager.put_message (connected : Bool) (toolO : ToolOutcome) :
    Except String Bool :=
  if connected then
    match toolO with
    | .raise _ => .ok false
    | .ok r => if r.returncode = 0 then .ok true else .ok false
  else
    .error "MQ connection not established"

/-- `MQManager.get_message`: guard, then one `amqsget` invocation.  A zero
exit code with non-empty stripped stdout yields a message; otherwise (zero
exit with empty output, or any non-zero exit) the call returns `None`; a
raising invocation is re-raised after logging. -/
def MQManager.get_message (connected : Bool) (toolO : ToolOutcome) :
    Except String (Option Message) :=
  if connected then
    match toolO with
    | .raise m => .error m
    | .ok r =>
      if r.returncode = 0 ∧ pyStrip r.stdout ≠ "" then .ok (some ⟨pyStrip r.stdout⟩)
      else .ok none
  else
    .error "MQ connection not established"

/-- `MQManager.browse_message`: guard, `get_message`, and when a message was
read, a `put_message` of the same payload whose result is discarded; the
message is returned. -/
def MQManager.browse_message (connected : Bool) (getO putO : ToolOutcome) :
    Except String (Option Message) :=
  if connected then
    match MQManager.get_message true getO with
    | .error m => .error m
    | .ok none => .ok none
    | .ok (some msg) =>
      match MQManager.put_message true putO with
      | _ => .ok (some msg)
  else
    .error "MQ connection not established"

/-- `MQManager.get_queue_depth`: guard, then a `display queue ... curdepth`
invocation through `runmqsc`.  On success the output is scanned for a
parsable `CURDEPTH` field (0 when the scan falls through); a failing
invocation returns −1, and a raising invocation is caught and also
returns −1. -/
def MQManager.get_queue_depth (connected : Bool) (cmdO : ToolOutcome) :
    Except String Int :=
  if connected then
    match cmdO with
    | .raise _ => .ok (-1)
    | .ok r =>
      if r.success then .ok ((curdepthScan r.stdout).getD 0)
      else .ok (-1)
  else
    .error "MQ connection not established"

/-- `MQManager.purge_queue`: guard, a depth probe through `get_queue_depth`,
then a `clear queue` invocation through `runmqsc`.  On success the probed
depth is reported, clamped below by 0; a failing clear raises a
`Failed to purge queue` error carrying the captured stderr, and a raising
clear invocation is re-raised after logging. -/
def MQManager.purge_queue (connected : Bool) (depthO clearO : ToolOutcome) :
    Except String Int :=
  if connected then
    match MQManager.get_queue_depth true depthO with
    | .error m => .error m
    | .ok d =>
      match clearO with
      | .raise m => .error m
      | .ok r =>
        if r.success then .ok (max 0 d)
        else .error ("Failed to purge queue: " ++ r.stderr)
  else
    .error "MQ connection not established"

/-- `MQManager.test_connection`: a `display qmgr` invocation through
`runmqsc`, with no connected-flag guard; reports the `success` field, and
a raising invocation is caught and turned into `false`. -/
def MQManager.test_connection (cmdO : ToolOutcome) : Bool :=
  match cmdO with
  | .raise _ => false
  | .ok r => r.success

/-! ## Operation-level view of the two CLI managers

One step function per manager, mapping an operation and the outcomes of the
external invocations it would make to the returned value (or raised error)
and the `connected` flag afterwards.  Only `connect` and `disconnect`
assign the flag in the source; every other method leaves it untouched. -/

/-- The public methods of `DB2Manager`. -/
inductive DB2Op where
  | connect | disconnect | is_connected
  | execute_query | execute_update | execute_batch | transaction
  | get_table_info | get_database_info | test_connection
  deriving DecidableEq, Repr

/-- External-outcome environment for one `DB2Manager` call. -/
structure DB2Env where
  connectO : ToolOutcome
  disconnectO : ToolOutcome
  importO : ToolOutcome
  exportO : ToolOutcome
  fileRows : List (List String)
  updO : ToolOutcome
  beginO : ToolOutcome
  stmts : List ToolOutcome
  commitO : ToolOutcome
  rollbackO : ToolOutcome
  body : PyOutcome

/-- Value returned (or error raised) by one `DB2Manager` call. -/
inductive DB2Value where
  | rows (rs : List (List (String × String)))
  | row (r : List (String × String))
  | count (n : Nat)
  | counts (ns : List Nat)
  | bool (b : Bool)
  | unit
  | raised (e : String)
  deriving DecidableEq, Repr

/-- Lift an `Except`-shaped call result into a `DB2Value`. -/
def DB2Value.ofExcept {α : Type} (f : α → DB2Value) : Except String α → DB2Value
  | .error e => .raised e
  | .ok a => f a

/-- One `DB2Manager` method call: returned value and `connected` flag after. -/
def DB2Manager.step (s : Bool) (op : DB2Op) (env : DB2Env) : DB2Value × Bool :=
  match op with
  | .connect =>
    let (b, s2) := DB2Manager.connect s env.connectO
    (.bool b, s2)
  | .disconnect => (.unit, DB2Manager.disconnect s env.disconnectO)
  | .is_connected => (.bool s, s)
  | .execute_query =>
    (DB2Value.ofExcept .rows (DB2Manager.execute_query s env.importO env.exportO env.fileRows), s)
  | .execute_update =>
    (DB2Value.ofExcept .count (DB2Manager.execute_update s env.updO), s)
  | .execute_batch =>
    (DB2Value.ofExcept .counts
      (DB2Manager.execute_batch s env.beginO env.stmts env.commitO env.rollbackO).1, s)
  | .transaction =>
    (DB2Value.ofExcept (fun _ => .unit)
      (DB2Manager.transaction s env.beginO env.body env.commitO env.rollbackO).1, s)
  | .get_table_info =>
    (DB2Value.ofExcept .rows (DB2Manager.get_table_info s env.importO env.exportO env.fileRows), s)
  | .get_database_info =>
    (DB2Value.ofExcept .row (DB2Manager.get_database_info s env.importO env.exportO env.fileRows), s)
  | .test_connection =>
    (.bool (DB2Manager.test_connection s env.importO env.exportO env.fileRows), s)

/-- The public methods of `MQManager`. -/
inductive MQOp where
  | connect | disconnect | is_connected
  | put_message | get_message | browse_message
  | get_queue_depth | purge_queue | test_connection
  deriving DecidableEq, Repr

/-- External-outcome environment for one `MQManager` call. -/
structure MQEnv where
  displayO : ToolOutcome
  putO : ToolOutcome
  getO : ToolOutcome
  depthO : ToolOutcome
  clearO : ToolOutcome

/-- Value returned (or error raised) by one `MQManager` call. -/
inductive MQValue where
  | bool (b : Bool)
  | msg (m : Option Message)
  | int (n : Int)
  | unit
  | raised (e : String)
  deriving DecidableEq, Repr

/-- Lift an `Except`-shaped call result into an `MQValue`. -/
def MQValue.ofExcept {α : Type} (f : α → MQValue) : Except String α → MQValue
  | .error e => .raised e
  | .ok a => f a

/-- One `MQManager` method call: returned value and `connected` flag after. -/
def MQManager.step (s : Bool) (op : MQOp) (env : MQEnv) : MQValue × Bool :=
  match op with
  | .connect =>
    let (b, s2) := MQManager.connect s env.displayO
    (.bool b, s2)
  | .disconnect => (.unit, MQManager.disconnect s)
  | .is_connected => (.bool s, s)
  | .put_message => (MQValue.ofExcept .bool (MQManager.put_message s env.putO), s)
  | .get_message => (MQValue.ofExcept .msg (MQManager.get_message s env.getO), s)
  | .browse_message =>
    (MQValue.ofExcept .msg (MQManager.browse_message s env.getO env.putO), s)
  | .get_queue_depth =>
    (MQValue.ofExcept .int (MQManager.get_queue_depth s env.depthO), s)
  | .purge_queue =>
    (MQValue.ofExcept .int (MQManager.purge_queue s env.depthO env.clearO), s)
  | .test_connection => (.bool (MQManager.test_connection env.displayO), s)

/-! ## Concrete data used when instantiating theorems -/

/-- A completed invocation with exit code 0 and empty output. -/
def okRun : ToolResult := ⟨0, "", ""⟩

/-- A `DB2Manager` environment in which every invocation completes with exit
code 0 and the export file holds a header row and one data row. -/
def db2EnvOk : DB2Env :=
  ⟨.ok okRun, .ok okRun, .ok okRun, .ok okRun, [["1"], ["1"]], .ok okRun,
    .ok okRun, [], .ok okRun, .ok okRun, .ok⟩

/-- An `MQManager` environment in which every invocation completes with exit
code 0 and empty output. -/
def mqEnvOk : MQEnv := ⟨.ok okRun, .ok okRun, .ok okRun, .ok okRun, .ok okRun⟩

/-! ## Claim theorems -/

/-- C1: for `implementation="library"`, `auto_fallback=true` and the native
library absent (so the availability cache is unset or `false`), both
`create_database_manager` and `create_messaging_manager` return the
CLI-backed adapter, and log exactly one warning exactly when a logger is
supplied. -/
theorem c1_library_fallback_returns_cli_and_warns_once :
    ∀ lg : Bool,
      (create_database_manager (some "library") true none false lg =
        ⟨.ok .cliAdapter, some false, if lg then 1 else 0, 0⟩) ∧
      (create_database_manager (some "library") true (some false) false lg =
        ⟨.ok .cliAdapter, some false, if lg then 1 else 0, 0⟩) ∧
      (create_messaging_manager (some "library") true none false lg =
        ⟨.ok .cliAdapter, some false, if lg then 1 else 0, 0⟩) ∧
      (create_messaging_manager (some "library") true (some false) false lg =
        ⟨.ok .cliAdapter, some false, if lg then 1 else 0, 0⟩) := by
  intro lg
  cases lg <;> exact ⟨rfl, rfl, rfl, rfl⟩

/-- C2 counterexample: the implementation value `"CLI"` is neither `"cli"`
nor `"library"`, yet the factory lowercases it and returns the CLI adapter
instead of raising a configuration error. -/
theorem c2_counterexample_uppercase_impl_accepted :
    ("CLI" ≠ "cli" ∧ "CLI" ≠ "library") ∧
    (create_database_manager (some "CLI") true none false false).result =
      FactoryResult.ok .cliAdapter ∧
    (create_messaging_manager (some "CLI") true none false false).result =
      FactoryResult.ok .cliAdapter :=
  ⟨⟨by decide, by decide⟩, rfl, rfl⟩

/-- C2 (amended): for every configuration whose **lowercased** implementation
value is neither `"cli"` nor `"library"`, both factory methods raise a
configuration error naming the invalid value and construct no manager; and
for `implementation="library"`, `auto_fallback=false` and the native
library absent, they raise a configuration error naming the missing
dependency. -/
theorem c2_invalid_impl_or_missing_lib_raises :
    (∀ (impl : String) (auto : Bool) (cache : Option Bool) (present lg : Bool),
      pyLower impl ≠ "cli" → pyLower impl ≠ "library" →
        (create_database_manager (some impl) auto cache present lg).result =
          .error (dbUnknownImplMsg (pyLower impl)) ∧
        (create_messaging_manager (some impl) auto cache present lg).result =
          .error (mqUnknownImplMsg (pyLower impl))) ∧
    (∀ lg : Bool,
      (create_database_manager (some "library") false none false lg).result =
        .error dbMissingLibMsg ∧
      (create_database_manager (some "library") false (some false) false lg).result =
        .error dbMissingLibMsg ∧
      (create_messaging_manager (some "library") false none false lg).result =
        .error mqMissingLibMsg ∧
      (create_messaging_manager (some "library") false (some false) false lg).result =
        .error mqMissingLibMsg) := by
  constructor
  · intro impl auto cache present lg h1 h2
    constructor
    · simp only [create_database_manager, Option.getD]
      rw [if_neg h2, if_neg h1]
    · simp only [create_messaging_manager, Option.getD]
      rw [if_neg h2, if_neg h1]
  · intro lg
    exact ⟨rfl, rfl, rfl, rfl⟩

/-- C2 witness: a concrete invalid value exercising the amended theorem. -/
theorem c2_invalid_impl_witness :
    pyLower "tui" ≠ "cli" ∧
    (create_database_manager (some "tui") true none false false).result =
      FactoryResult.error (dbUnknownImplMsg (pyLower "tui")) :=
  ⟨by decide,
    (c2_invalid_impl_or_missing_lib_raises.1 "tui" true none false false
      (by decide) (by decide)).1⟩

/-- C3: for `implementation="cli"` or an absent implementation key, both
factory methods return the CLI adapter, for every availability-cache
state, whether or not the native library is present, and for every
`auto_fallback` value. -/
theorem c3_cli_impl_returns_cli_adapter :
    ∀ (auto : Bool) (cache : Option Bool) (present lg : Bool),
      (create_database_manager none auto cache present lg =
        ⟨.ok .cliAdapter, some (cache.getD present), 0, if lg then 1 else 0⟩) ∧
      (create_database_manager (some "cli") auto cache present lg =
        ⟨.ok .cliAdapter, some (cache.getD present), 0, if lg then 1 else 0⟩) ∧
      (create_messaging_manager none auto cache present lg =
        ⟨.ok .cliAdapter, some (cache.getD present), 0, if lg then 1 else 0⟩) ∧
      (create_messaging_manager (some "cli") auto cache present lg =
        ⟨.ok .cliAdapter, some (cache.getD present), 0, if lg then 1 else 0⟩) := by
  intro auto cache present lg
  cases cache <;> cases lg <;> exact ⟨rfl, rfl, rfl, rfl⟩

/-- C4 counterexample: with a body exception, a rollback invocation that
itself raises (a timeout) masks the original exception, so the caller does
not observe the original message; and with a normally completing body, a
raising commit invocation leads to both a commit and a rollback being
issued on one exit path.  The library backend masks the original exception
the same way. -/
theorem c4_counterexample_rollback_masks_body_error :
    (DB2Manager.transaction true (.ok ⟨0, "", ""⟩) (.raise "body failure")
        (.ok ⟨0, "", ""⟩) (.raise "rollback timeout") =
      (.error "rollback timeout", [.begin_tx, .rollback_tx])) ∧
    (DB2Manager.transaction true (.ok ⟨0, "", ""⟩) .ok
        (.raise "commit timeout") (.ok ⟨0, "", ""⟩) =
      (.error "commit timeout", [.begin_tx, .commit_tx, .rollback_tx])) ∧
    (DB2LibraryAdapter.transaction true (.raise "body failure") .ok
        (.raise "rollback failure") =
      (.error "rollback failure", [.rollback_tx])) :=
  ⟨rfl, rfl, rfl⟩

/-- C4 (amended): in both backends, when the commit and rollback invocations
themselves do not raise, a connected manager's transaction scope commits
on normal body completion, and on a body exception issues a rollback and
re-raises the original exception unchanged; the issued boundary
invocations show exactly one of commit or rollback on each such exit
path. -/
theorem c4_transaction_commits_or_rolls_back :
    ∀ (b c r : ToolResult) (m : String),
      (DB2Manager.transaction true (.ok b) .ok (.ok c) (.ok r) =
        (.ok (), [.begin_tx, .commit_tx])) ∧
      (DB2Manager.transaction true (.ok b) (.raise m) (.ok c) (.ok r) =
        (.error m, [.begin_tx, .rollback_tx])) ∧
      (DB2LibraryAdapter.transaction true .ok .ok .ok =
        (.ok (), [.commit_tx])) ∧
      (DB2LibraryAdapter.transaction true (.raise m) .ok .ok =
        (.error m, [.rollback_tx])) := by
  intro b c r m
  exact ⟨rfl, rfl, rfl, rfl⟩

/-- The CLI statement loop on statements that all complete: one fixed count
per statement. -/
theorem runStatements_all_ok (oks : List ToolResult) :
    runStatements (oks.map .ok) = .ok (List.replicate oks.length 1) := by
  induction oks with
  | nil => rfl
  | cons a t ih => simp [runStatements, ih, List.replicate_succ, Except.map]

/-- The CLI statement loop stops at the first raising statement and
propagates its message. -/
theorem runStatements_first_raise (pre : List ToolResult) (m : String)
    (post : List ToolOutcome) :
    runStatements (pre.map .ok ++ .raise m :: post) = .error m := by
  induction pre with
  | nil => rfl
  | cons a t ih => simp [runStatements, ih, Except.map]

/-- The library statement loop on statements that all complete: their
rowcounts in order. -/
theorem runLibStatements_all_ok (ns : List Int) :
    runLibStatements (ns.map .ok) = .ok ns := by
  induction ns with
  | nil => rfl
  | cons a t ih => simp [runLibStatements, ih, Except.map]

/-- The library statement loop stops at the first raising statement and
propagates its message. -/
theorem runLibStatements_first_raise (pre : List Int) (m : String)
    (post : List LibStmt) :
    runLibStatements (pre.map .ok ++ .raise m :: post) = .error m := by
  induction pre with
  | nil => rfl
  | cons a t ih => simp [runLibStatements, ih, Except.map]

/-- C5: in both backends, a batch whose statements all succeed returns one
affected-row count per statement and commits; a batch with a failing
statement among them issues a rollback, no commit, and raises.  (The CLI
backend reports the fixed count 1 per statement; the library backend
reports each `cursor.rowcount`.) -/
theorem c5_execute_batch_all_or_nothing :
    ∀ (b c : ToolResult) (rb : ToolOutcome) (pre oks : List ToolResult)
      (m : String) (post : List ToolOutcome)
      (preL ns : List Int) (postL : List LibStmt) (lrb : PyOutcome),
      ((DB2Manager.execute_batch true (.ok b) (pre.map .ok ++ .raise m :: post)
          (.ok c) rb).2 = [.begin_tx, .rollback_tx] ∧
        ∃ e, (DB2Manager.execute_batch true (.ok b) (pre.map .ok ++ .raise m :: post)
          (.ok c) rb).1 = .error e) ∧
      (DB2Manager.execute_batch true (.ok b) (oks.map .ok) (.ok c) rb =
        (.ok (List.replicate oks.length 1), [.begin_tx, .commit_tx])) ∧
      ((DB2LibraryAdapter.execute_batch true (preL.map .ok ++ .raise m :: postL)
          .ok lrb).2 = [.rollback_tx] ∧
        ∃ e, (DB2LibraryAdapter.execute_batch true (preL.map .ok ++ .raise m :: postL)
          .ok lrb).1 = .error e) ∧
      (DB2LibraryAdapter.execute_batch true (ns.map .ok) .ok lrb =
        (.ok ns, [.commit_tx])) := by
  intro b c rb pre oks m post preL ns postL lrb
  refine ⟨⟨?_, ?_⟩, ?_, ⟨?_, ?_⟩, ?_⟩
  · cases rb <;>
      simp [DB2Manager.execute_batch, runStatements_first_raise, rollbackThenRaise]
  · cases rb with
    | ok r2 =>
      exact ⟨m, by simp [DB2Manager.execute_batch, runStatements_first_raise,
        rollbackThenRaise]⟩
    | raise m2 =>
      exact ⟨m2, by simp [DB2Manager.execute_batch, runStatements_first_raise,
        rollbackThenRaise]⟩
  · simp [DB2Manager.execute_batch, runStatements_all_ok]
  · cases lrb <;>
      simp [DB2LibraryAdapter.execute_batch, runLibStatements_first_raise]
  · cases lrb with
    | ok =>
      exact ⟨m, by simp [DB2LibraryAdapter.execute_batch, runLibStatements_first_raise]⟩
    | raise m2 =>
      exact ⟨m2, by simp [DB2LibraryAdapter.execute_batch, runLibStatements_first_raise]⟩
  · simp [DB2LibraryAdapter.execute_batch, runLibStatements_all_ok]

/-- C6 counterexample: `test_connection` is not refused with a "not
connected" error on a disconnected manager: the MQ manager runs its probe
regardless of the flag and here returns `true`, and the DB2 manager
swallows the guard error and returns `false` — neither raises. -/
theorem c6_counterexample_test_connection_not_guarded :
    (MQManager.step false MQOp.test_connection mqEnvOk).1 = .bool true ∧
    (DB2Manager.step false DB2Op.test_connection db2EnvOk).1 = .bool false :=
  ⟨rfl, rfl⟩

/-- C6 (amended): only `connect` can turn the `connected` flag on; every
operation other than `connect` / `is_connected` / `disconnect` /
`test_connection` raises a "not connected" error on a disconnected
manager; `test_connection` instead returns a boolean without raising — the
DB2 manager returns `false` when disconnected, while the MQ manager runs
its probe regardless of the flag. -/
theorem c6_only_connect_sets_flag_and_ops_guarded :
    (∀ (s : Bool) (op : DB2Op) (env : DB2Env),
        (DB2Manager.step s op env).2 = true → s = true ∨ op = DB2Op.connect) ∧
    (∀ (s : Bool) (op : MQOp) (env : MQEnv),
        (MQManager.step s op env).2 = true → s = true ∨ op = MQOp.connect) ∧
    (∀ (env : DB2Env) (op : DB2Op),
        op ∈ [DB2Op.execute_query, .execute_update, .execute_batch, .transaction,
              .get_table_info, .get_database_info] →
        (DB2Manager.step false op env).1 = .raised "Database connection not established") ∧
    (∀ (env : MQEnv) (op : MQOp),
        op ∈ [MQOp.put_message, .get_message, .browse_message,
              .get_queue_depth, .purge_queue] →
        (MQManager.step false op env).1 = .raised "MQ connection not established") ∧
    (∀ env : DB2Env, (DB2Manager.step false DB2Op.test_connection env).1 = .bool false) ∧
    (∀ env : MQEnv, ∃ b : Bool,
        (MQManager.step false MQOp.test_connection env).1 = .bool b) := by
  refine ⟨?_, ?_, ?_, ?_, fun env => rfl, ?_⟩
  · intro s op env h
    cases s
    · cases op <;>
        first
          | exact Or.inr rfl
          | simp [DB2Manager.step, DB2Manager.disconnect] at h
    · exact Or.inl rfl
  · intro s op env h
    cases s
    · cases op <;>
        first
          | exact Or.inr rfl
          | simp [MQManager.step, MQManager.disconnect] at h
    · exact Or.inl rfl
  · intro env op hop
    cases op <;> first | rfl | exact absurd hop (by decide)
  · intro env op hop
    cases op <;> first | rfl | exact absurd hop (by decide)
  · intro env
    rcases env with ⟨d, p, g, dep, cl⟩
    cases d with
    | raise m => exact ⟨false, rfl⟩
    | ok r => exact ⟨r.success, rfl⟩

/-- C6 witness: the amended theorem at concrete inputs — a connected
`is_connected` call keeps the flag, and two disconnected data operations
are refused. -/
theorem c6_guarded_ops_witness :
    (true = true ∨ DB2Op.is_connected = DB2Op.connect) ∧
    (DB2Manager.step false DB2Op.execute_query db2EnvOk).1 =
      .raised "Database connection not established" ∧
    (MQManager.step false MQOp.put_message mqEnvOk).1 =
      .raised "MQ connection not established" :=
  ⟨c6_only_connect_sets_flag_and_ops_guarded.1 true .is_connected db2EnvOk rfl,
    c6_only_connect_sets_flag_and_ops_guarded.2.2.1 db2EnvOk _ (by decide),
    c6_only_connect_sets_flag_and_ops_guarded.2.2.2.1 mqEnvOk _ (by decide)⟩

/-- C7 counterexample: a non-zero tool exit code makes `get_message` return
`None`; it does not raise an error carrying the captured stderr. -/
theorem c7_counterexample_nonzero_exit_returns_none :
    MQManager.get_message true (.ok ⟨2, "", "amqsget failed"⟩) = .ok none ∧
    MQManager.get_message true (.ok ⟨2, "", "amqsget failed"⟩) ≠
      .error "amqsget failed" :=
  ⟨rfl, by decide⟩

/-- C7 (amended): a connected manager's `get_message` returns `None` both
when the tool exits 0 with empty stripped output and when it exits
non-zero; it returns a message exactly when the tool exits 0 with
non-empty stripped output; and it raises only when the tool invocation
itself raises, propagating that exception. -/
theorem c7_get_message_none_or_message :
    ∀ (r : ToolResult) (m : String),
      ((r.returncode ≠ 0 ∨ pyStrip r.stdout = "") →
        MQManager.get_message true (.ok r) = .ok none) ∧
      (r.returncode = 0 → pyStrip r.stdout ≠ "" →
        MQManager.get_message true (.ok r) = .ok (some ⟨pyStrip r.stdout⟩)) ∧
      (MQManager.get_message true (.raise m) = .error m) := by
  intro r m
  refine ⟨fun h => ?_, fun h1 h2 => ?_, rfl⟩
  · have hc : ¬(r.returncode = 0 ∧ pyStrip r.stdout ≠ "") := by
      rcases h with h | h
      · exact fun hc => h hc.1
      · exact fun hc => hc.2 h
    simp [MQManager.get_message, hc]
  · simp [MQManager.get_message, h1, h2]

/-- C7 witness: the amended theorem at concrete tool results. -/
theorem c7_get_message_witness :
    MQManager.get_message true (.ok ⟨2, "", "x"⟩) = .ok none ∧
    MQManager.get_message true (.ok ⟨0, "   ", ""⟩) = .ok none ∧
    MQManager.get_message true (.ok ⟨0, " hello ", ""⟩) =
      .ok (some ⟨pyStrip " hello "⟩) :=
  ⟨(c7_get_message_none_or_message ⟨2, "", "x"⟩ "m").1 (Or.inl (by decide)),
    (c7_get_message_none_or_message ⟨0, "   ", ""⟩ "m").1 (Or.inr (by decide)),
    (c7_get_message_none_or_message ⟨0, " hello ", ""⟩ "m").2.1 rfl (by decide)⟩

/-- C8 counterexample: a write-path failure of `put_message` — a non-zero
tool exit code, or a raising invocation such as a timeout — is swallowed
into a `false` return value; no error reaches the caller. -/
theorem c8_counterexample_put_failure_swallowed :
    (MQManager.put_message true (.ok ⟨1, "", "MQPUT failed"⟩) = .ok false ∧
      MQManager.put_message true (.ok ⟨1, "", "MQPUT failed"⟩) ≠
        .error "MQPUT failed") ∧
    MQManager.put_message true (.raise "timeout") = .ok false :=
  ⟨⟨rfl, by decide⟩, rfl⟩

/-- C8 (amended): on a connected manager, every write-path failure of
`put_message` (non-zero tool exit code, or a raising invocation, timeout
included) is caught, logged, and reported by returning `false`; only a
zero exit code returns `true`, and no error propagates to the caller. -/
theorem c8_put_failure_returns_false :
    ∀ (r : ToolResult) (m : String),
      (r.returncode ≠ 0 → MQManager.put_message true (.ok r) = .ok false) ∧
      (MQManager.put_message true (.raise m) = .ok false) ∧
      (r.returncode = 0 → MQManager.put_message true (.ok r) = .ok true) := by
  intro r m
  refine ⟨fun h => ?_, rfl, fun h => ?_⟩
  · simp [MQManager.put_message, h]
  · simp [MQManager.put_message, h]

/-- C8 witness: the amended theorem at concrete tool results. -/
theorem c8_put_message_witness :
    MQManager.put_message true (.ok ⟨1, "", "e"⟩) = .ok false ∧
    MQManager.put_message true (.ok ⟨0, "", ""⟩) = .ok true :=
  ⟨(c8_put_failure_returns_false ⟨1, "", "e"⟩ "m").1 (by decide),
    (c8_put_failure_returns_false ⟨0, "", ""⟩ "m").2.2 rfl⟩

/-- C9: on a connected manager, `get_queue_depth` returns −1 when the
inspect invocation raises or exits non-zero, 0 when it succeeds but the
`CURDEPTH` scan finds no parsable value, and the parsed value when the
scan finds one. -/
theorem c9_queue_depth_sentinels :
    ∀ (r : ToolResult) (m : String),
      (MQManager.get_queue_depth true (.raise m) = .ok (-1)) ∧
      (r.returncode ≠ 0 → MQManager.get_queue_depth true (.ok r) = .ok (-1)) ∧
      (r.returncode = 0 → curdepthScan r.stdout = none →
        MQManager.get_queue_depth true (.ok r) = .ok 0) ∧
      (∀ d : Int, r.returncode = 0 → curdepthScan r.stdout = some d →
        MQManager.get_queue_depth true (.ok r) = .ok d) := by
  intro r m
  refine ⟨rfl, fun h => ?_, fun h1 h2 => ?_, fun d h1 h2 => ?_⟩
  · simp [MQManager.get_queue_depth, ToolResult.success, h]
  · simp [MQManager.get_queue_depth, ToolResult.success, h1, h2]
  · simp [MQManager.get_queue_depth, ToolResult.success, h1, h2]

/-- C9 witness: the three outcomes on concrete tool results — a failed
invocation, a `runmqsc`-formatted `CURDEPTH(5)` token the scan cannot
parse, and a parsable `CURDEPTH 7` field. -/
theorem c9_queue_depth_witness :
    MQManager.get_queue_depth true (.ok ⟨1, "", "err"⟩) = .ok (-1) ∧
    MQManager.get_queue_depth true
      (.ok ⟨0, "QUEUE(TEST.QUEUE) TYPE(QLOCAL)\n   CURDEPTH(5)", ""⟩) = .ok 0 ∧
    MQManager.get_queue_depth true (.ok ⟨0, " QUEUE(Q1) CURDEPTH 7 ", ""⟩) = .ok 7 :=
  ⟨(c9_queue_depth_sentinels ⟨1, "", "err"⟩ "m").2.1 (by decide),
    (c9_queue_depth_sentinels ⟨0, "QUEUE(TEST.QUEUE) TYPE(QLOCAL)\n   CURDEPTH(5)", ""⟩
      "m").2.2.1 rfl (by decide),
    (c9_queue_depth_sentinels ⟨0, " QUEUE(Q1) CURDEPTH 7 ", ""⟩
      "m").2.2.2 7 rfl (by decide)⟩

/-- C10: on a connected manager, when the clear invocation completes with
exit code 0, `purge_queue` returns `max 0 d` where `d` is the depth probed
just before clearing; in particular a failed depth probe (−1, from a
raising or non-zero-exit inspect invocation) makes it report 0 rather
than propagate the probe failure. -/
theorem c10_purge_reports_clamped_probe_depth :
    ∀ (depthO : ToolOutcome) (c r : ToolResult) (m : String) (d : Int),
      (c.returncode = 0 → MQManager.get_queue_depth true depthO = .ok d →
        MQManager.purge_queue true depthO (.ok c) = .ok (max 0 d)) ∧
      (c.returncode = 0 →
        MQManager.purge_queue true (.raise m) (.ok c) = .ok 0) ∧
      (c.returncode = 0 → r.returncode ≠ 0 →
        MQManager.purge_queue true (.ok r) (.ok c) = .ok 0) := by
  intro depthO c r m d
  refine ⟨fun h1 h2 => ?_, fun h1 => ?_, fun h1 h2 => ?_⟩
  · simp [MQManager.purge_queue, ToolResult.success, h1, h2]
  · simp [MQManager.purge_queue, MQManager.get_queue_depth, ToolResult.success, h1]
  · simp [MQManager.purge_queue, MQManager.get_queue_depth, ToolResult.success, h1, h2]

/-- C10 witness: a successful clear after a parsable probe reports the
probed depth; a successful clear after a raising probe reports 0. -/
theorem c10_purge_queue_witness :
    MQManager.purge_queue true (.ok ⟨0, "CURDEPTH 3", ""⟩) (.ok ⟨0, "", ""⟩) =
      .ok (max 0 3) ∧
    MQManager.purge_queue true (.raise "probe failed") (.ok ⟨0, "", ""⟩) = .ok 0 :=
  ⟨(c10_purge_reports_clamped_probe_depth (.ok ⟨0, "CURDEPTH 3", ""⟩)
      ⟨0, "", ""⟩ ⟨0, "", ""⟩ "m" 3).1 rfl (by decide),
    (c10_purge_reports_clamped_probe_depth (.raise "probe failed")
      ⟨0, "", ""⟩ ⟨0, "", ""⟩ "probe failed" 0).2.1 rfl⟩

end CommonPython
